import Mathlib

/-!
Shallow embedding of the content acquisition and quality-gating pipeline:
`src/services/content_quality_validator.py` and
`src/services/robust_content_extractor.py`.

Python strings are modelled as `List Char`; stdlib calls (`str.strip`,
`str.split`, `str.splitlines`, `str.lower`, `re.findall` for the five
concrete patterns, `urllib.parse.urlparse(...).netloc`) are embedded as
executable Lean functions faithful to their behaviour on the inputs the
program feeds them.  Network effects of the extractor are an oracle
environment; everything else is translated line by line from the source.
-/

/-- Python `\s` whitespace class restricted to the ASCII whitespace the
program ever produces: space, tab, newline, carriage return, vertical
tab, form feed. -/
def isPySpace (c : Char) : Bool :=
  c = ' ' || c = '\t' || c = '\n' || c = '\r' || c = '\x0b' || c = '\x0c'

/-- Python `str.strip()`: drop whitespace from both ends. -/
def pyStrip (l : List Char) : List Char :=
  ((l.dropWhile isPySpace).reverse.dropWhile isPySpace).reverse

/-- Python `str.lower()` on the alphabet this program manipulates:
ASCII letters plus the accented Latin capitals appearing in the
Portuguese keyword lists. -/
def toLowerPy (c : Char) : Char :=
  if 'A' ≤ c ∧ c ≤ 'Z' then Char.ofNat (c.toNat + 32)
  else if c = 'Á' then 'á'
  else if c = 'Â' then 'â'
  else if c = 'Ã' then 'ã'
  else if c = 'É' then 'é'
  else if c = 'Ê' then 'ê'
  else if c = 'Í' then 'í'
  else if c = 'Ó' then 'ó'
  else if c = 'Õ' then 'õ'
  else if c = 'Ú' then 'ú'
  else if c = 'Ç' then 'ç'
  else c

/-- Helper for Python `str.split()`: accumulate the current word
(reversed) while scanning. -/
def pySplitAux : List Char → List Char → List (List Char)
  | [], acc => if acc = [] then [] else [acc.reverse]
  | c :: cs, acc =>
    if isPySpace c then
      if acc = [] then pySplitAux cs [] else acc.reverse :: pySplitAux cs []
    else pySplitAux cs (c :: acc)

/-- Python `str.split()` with no argument: split on whitespace runs,
discarding empty fields. -/
def pySplit (l : List Char) : List (List Char) :=
  pySplitAux l []

/-- Helper for Python `str.splitlines()`: split on newline characters,
treating a `\r\n` pair as a single break, with no trailing empty line. -/
def splitLinesAux : List Char → List Char → List (List Char)
  | [], acc => if acc = [] then [] else [acc.reverse]
  | '\r' :: '\n' :: cs, acc =>
    acc.reverse :: (if cs = [] then [] else splitLinesAux cs [])
  | '\n' :: cs, acc =>
    acc.reverse :: (if cs = [] then [] else splitLinesAux cs [])
  | '\r' :: cs, acc =>
    acc.reverse :: (if cs = [] then [] else splitLinesAux cs [])
  | c :: cs, acc => splitLinesAux cs (c :: acc)

/-- Python `str.splitlines()` on the line breaks this program produces. -/
def splitLines (l : List Char) : List (List Char) :=
  splitLinesAux l []

/-- Index of the last newline character in a list, if any. -/
def lastNlIdx (l : List Char) : Option Nat :=
  match l with
  | [] => none
  | c :: cs =>
    match lastNlIdx cs with
    | some k => some (k + 1)
    | none => if c = '\n' then some 0 else none

/-- One step of `re.sub(r'\n\s*\n', '\n\n', text)`: at a position whose
character is a newline, the regex greedily consumes following whitespace
and backtracks so that the match ends at the last newline of that
whitespace run; the whole match is replaced by two newlines.  Fuel-indexed
so that the recursion is structural and the kernel can evaluate it; the
wrapper supplies fuel equal to the length, which always suffices because
every step consumes at least one character. -/
def collapseBlankGo : Nat → List Char → List Char
  | 0, l => l
  | _ + 1, [] => []
  | f + 1, c :: cs =>
    if c = '\n' then
      match lastNlIdx (cs.takeWhile isPySpace) with
      | some k => '\n' :: '\n' :: collapseBlankGo f (cs.drop (k + 1))
      | none => c :: collapseBlankGo f cs
    else c :: collapseBlankGo f cs

/-- `re.sub(r'\n\s*\n', '\n\n', text)` from `_clean_text`. -/
def collapseBlank (l : List Char) : List Char :=
  collapseBlankGo l.length l

/-- `re.sub(r' +', ' ', text)` from `_clean_text`: collapse runs of
space characters (only `' '`) to a single space.  Fuel-indexed for the
same reason as `collapseBlankGo`. -/
def collapseSpacesGo : Nat → List Char → List Char
  | 0, l => l
  | _ + 1, [] => []
  | f + 1, c :: cs =>
    if c = ' ' then ' ' :: collapseSpacesGo f (cs.dropWhile (fun x => x = ' '))
    else c :: collapseSpacesGo f cs

/-- `re.sub(r' +', ' ', text)` from `_clean_text`. -/
def collapseSpaces (l : List Char) : List Char :=
  collapseSpacesGo l.length l

/-- Count the non-overlapping matches of a pattern in a text, scanning
left to right: `m l` returns the length of the match starting exactly
at the head of `l`, if any.  `skip` is the number of characters of the
current match still to be passed over, so scanning resumes right after
each match, as Python `re.findall` does for the patterns embedded
below, whose matches are never empty. -/
def countMatchesGo (m : List Char → Option Nat) : List Char → Nat → Nat
  | [], _ => 0
  | c :: cs, skip =>
    if 0 < skip then countMatchesGo m cs (skip - 1)
    else
      match m (c :: cs) with
      | some n => 1 + countMatchesGo m cs (n - 1)
      | none => countMatchesGo m cs 0

/-- `len(re.findall(pattern, content))` for a pattern given by its
match-at-position function. -/
def countMatches (m : List Char → Option Nat) (l : List Char) : Nat :=
  countMatchesGo m l 0

/-- Python substring test `needle in hay`. -/
def hasInfix (needle : List Char) : List Char → Bool
  | [] => needle == []
  | c :: cs => needle.isPrefixOf (c :: cs) || hasInfix needle cs

/-- Characters matched by the class `[\d,\.]`. -/
def isDataChar (c : Char) : Bool :=
  c.isDigit || c = ',' || c = '.'

/-- Case-insensitive literal prefix test: does `l` start with the
(lowercase) keyword `kw` up to Python `IGNORECASE` folding? -/
def lowHasPrefix (kw l : List Char) : Bool :=
  (l.take kw.length).map toLowerPy == kw

/-- Match of `r'\d+%'` at the head of the text: a maximal digit run
followed by a percent sign. -/
def pctLenAt (l : List Char) : Option Nat :=
  let d := l.takeWhile Char.isDigit
  if d.length = 0 then none
  else
    match l.drop d.length with
    | '%' :: _ => some (d.length + 1)
    | _ => none

/-- Match of `r'R\$\s*[\d,\.]+'` (IGNORECASE) at the head of the text. -/
def moneyLenAt : List Char → Option Nat
  | c :: '$' :: rest =>
    if c = 'r' ∨ c = 'R' then
      let s := rest.takeWhile isPySpace
      let b := (rest.drop s.length).takeWhile isDataChar
      if b.length = 0 then none else some (2 + s.length + b.length)
    else none
  | _ => none

/-- Match of `r'\d+\s*(u1|u2|...)'` (IGNORECASE) at the head of the
text: a maximal digit run, maximal whitespace, then the first unit of
the alternation that is a prefix.  Backtracking into the digit or
whitespace runs cannot create a match these greedy runs miss, because
no unit starts with a digit or a whitespace character. -/
def unitLenAt (units : List (List Char)) (l : List Char) : Option Nat :=
  let d := l.takeWhile Char.isDigit
  if d.length = 0 then none
  else
    let rest := l.drop d.length
    let s := rest.takeWhile isPySpace
    let rest2 := rest.drop s.length
    match units.find? (fun u => lowHasPrefix u rest2) with
    | some u => some (d.length + s.length + u.length)
    | none => none

/-- Match of `r'\d+\s*(mil|milhão|bilhão)'` (IGNORECASE); the
alternative `mil` is first, so it also wins on the text `milhão`. -/
def bigNumLenAt : List Char → Option Nat :=
  unitLenAt [String.toList "mil", String.toList "milhão", String.toList "bilhão"]

/-- Match of `r'20(2[3-9]|[3-9]\d)'` at the head of the text. -/
def yearLenAt : List Char → Option Nat
  | '2' :: '0' :: c :: d :: _ =>
    if c = '2' ∧ '3' ≤ d ∧ d ≤ '9' then some 4
    else if '3' ≤ c ∧ c ≤ '9' ∧ d.isDigit then some 4
    else none
  | _ => none

/-- Match of `r'\d+\s*(empresas|clientes|usuários)'` (IGNORECASE). -/
def entityLenAt : List Char → Option Nat :=
  unitLenAt [String.toList "empresas", String.toList "clientes", String.toList "usuários"]

/-- The `data_matches` total of `validate_content`: the summed match
counts of the five `data_patterns` regexes over the content. -/
def dataMatches (content : List Char) : Nat :=
  countMatches pctLenAt content + countMatches moneyLenAt content +
    countMatches bigNumLenAt content + countMatches yearLenAt content +
    countMatches entityLenAt content

/-- The text after the first `//`, scanning left to right. -/
def afterSlashes : List Char → Option (List Char)
  | '/' :: '/' :: rest => some rest
  | _ :: cs => afterSlashes cs
  | [] => none

/-- `urllib.parse.urlparse(url).netloc` for URLs of the shape
`scheme://host/...` this program handles: the text between the first
`//` and the next `/`, `?` or `#`. -/
def netlocOf (url : List Char) : List Char :=
  match afterSlashes url with
  | some rest => rest.takeWhile (fun c => !(c = '/' || c = '?' || c = '#'))
  | none => []

/-! ## Content Quality Validator (`content_quality_validator.py`) -/

/-- The `quality_level` values of the validator. -/
inductive QualityLevel
  | invalid
  | poor
  | fair
  | good
  | excellent
deriving DecidableEq

/-- The dictionary returned by `validate_content`.  The empty-content
branch of the source returns a dictionary without the `strengths`,
`content_length` and `word_count` keys, so those fields are `Option`s:
`none` models an absent key. -/
structure QualityReport where
  url : List Char
  valid : Bool
  quality_score : Nat
  quality_level : QualityLevel
  issues : List String
  strengths : Option (List String)
  content_length : Option Nat
  word_count : Option Nat
deriving DecidableEq

/-- The state set up by `ContentQualityValidator.__init__`: the minimum
content length and the four quality thresholds.  Note that `__init__`
assigns no `stats` attribute. -/
structure ContentQualityValidator where
  min_content_length : Nat
  th_excellent : Nat
  th_good : Nat
  th_fair : Nat
  th_poor : Nat

/-- The module-level instance `content_quality_validator`. -/
def content_quality_validator : ContentQualityValidator :=
  { min_content_length := 100, th_excellent := 90, th_good := 70,
    th_fair := 50, th_poor := 30 }

/-- Sub-score 1 of `validate_content`: `Comprimento adequado (25 pontos)`. -/
def lengthPoints (v : ContentQualityValidator) (content : List Char) : Nat :=
  if 2000 ≤ content.length then 25
  else if 1000 ≤ content.length then 20
  else if 500 ≤ content.length then 15
  else if v.min_content_length ≤ content.length then 10
  else 0

/-- Sub-score 2 of `validate_content`: `Densidade de informação (25
pontos)`, keyed on the word count `len(content.split())`. -/
def densityPoints (content : List Char) : Nat :=
  if 300 ≤ (pySplit content).length then 25
  else if 150 ≤ (pySplit content).length then 20
  else if 75 ≤ (pySplit content).length then 15
  else 0

/-- Sub-score 3 of `validate_content`: `Presença de dados estruturados
(20 pontos)`, keyed on the summed regex match count. -/
def dataPoints (content : List Char) : Nat :=
  if 10 ≤ dataMatches content then 20
  else if 5 ≤ dataMatches content then 15
  else if 2 ≤ dataMatches content then 10
  else 0

/-- The `trusted` domain fragments of `validate_content`. -/
def trustedDomains : List (List Char) :=
  [String.toList "gov.br", String.toList "edu.br", String.toList "org.br",
   String.toList "ibge.gov.br", String.toList "sebrae.com.br"]

/-- The `news` domain fragments of `validate_content`. -/
def newsDomains : List (List Char) :=
  [String.toList "g1.globo.com", String.toList "exame.com",
   String.toList "valor.globo.com", String.toList "estadao.com.br"]

/-- The lowercased `urlparse(url).netloc` used by `validate_content`. -/
def domainOf (url : List Char) : List Char :=
  (netlocOf url).map toLowerPy

/-- Sub-score 4 of `validate_content`: `Qualidade da fonte (15
pontos)`.  The final branch awards 5 points unconditionally. -/
def sourcePoints (url : List Char) : Nat :=
  if trustedDomains.any (fun t => hasInfix t (domainOf url)) then 15
  else if newsDomains.any (fun t => hasInfix t (domainOf url)) then 12
  else if (String.toList ".com.br").isSuffixOf (domainOf url) then 8
  else 5

/-- The `relevance_keywords` list of `validate_content`. -/
def relevanceKeywords : List (List Char) :=
  [String.toList "mercado", String.toList "negócio", String.toList "empresa",
   String.toList "crescimento", String.toList "oportunidade",
   String.toList "tendência", String.toList "análise", String.toList "dados",
   String.toList "pesquisa", String.toList "estudo"]

/-- The `relevance_matches` count of `validate_content`:
`sum(1 for keyword in relevance_keywords if keyword in content_lower)`,
i.e. the number of distinct keywords occurring in the lowercased
content — multiple occurrences of one keyword count once. -/
def relevanceMatches (content : List Char) : Nat :=
  (relevanceKeywords.filter (fun k => hasInfix k (content.map toLowerPy))).length

/-- Sub-score 5 of `validate_content`: `Relevância do conteúdo (15
pontos)`. -/
def relevancePoints (content : List Char) : Nat :=
  if 8 ≤ relevanceMatches content then 15
  else if 5 ≤ relevanceMatches content then 12
  else if 3 ≤ relevanceMatches content then 8
  else 0

/-- The `strengths` list accumulated by `validate_content`, in rubric
order. -/
def reportStrengths (_v : ContentQualityValidator) (content url : List Char) :
    List String :=
  (if 2000 ≤ content.length then ["Conteúdo extenso"]
   else if 1000 ≤ content.length then ["Conteúdo substancial"] else []) ++
  (if 300 ≤ (pySplit content).length then ["Alta densidade de palavras"] else []) ++
  (if 10 ≤ dataMatches content then ["Rico em dados numéricos"] else []) ++
  (if trustedDomains.any (fun t => hasInfix t (domainOf url)) then
     ["Fonte oficial/confiável"]
   else if newsDomains.any (fun t => hasInfix t (domainOf url)) then
     ["Fonte jornalística confiável"] else []) ++
  (if 8 ≤ relevanceMatches content then ["Altamente relevante"] else [])

/-- The `issues` list accumulated by `validate_content` on non-empty
content, in rubric order. -/
def reportIssues (v : ContentQualityValidator) (content : List Char) :
    List String :=
  (if content.length < v.min_content_length then ["Conteúdo muito curto"] else []) ++
  (if (pySplit content).length < 75 then ["Baixa densidade de palavras"] else []) ++
  (if dataMatches content < 2 then ["Poucos dados estruturados"] else []) ++
  (if relevanceMatches content < 3 then ["Baixa relevância temática"] else [])

/-- `ContentQualityValidator.validate_content`, translated branch by
branch: the empty-content short-circuit, the five summed sub-scores, the
threshold ladder for `quality_level`, and the final `valid` predicate. -/
def validate_content (v : ContentQualityValidator) (content url : List Char) :
    QualityReport :=
  if content = [] then
    { url := url, valid := false, quality_score := 0,
      quality_level := .invalid, issues := ["Conteúdo vazio"],
      strengths := none, content_length := none, word_count := none }
  else
    let score := lengthPoints v content + densityPoints content +
      dataPoints content + sourcePoints url + relevancePoints content
    { url := url,
      valid := decide (v.min_content_length ≤ content.length ∧ v.th_poor ≤ score),
      quality_score := score,
      quality_level :=
        if v.th_excellent ≤ score then .excellent
        else if v.th_good ≤ score then .good
        else if v.th_fair ≤ score then .fair
        else .poor,
      issues := reportIssues v content,
      strengths := some (reportStrengths v content url),
      content_length := some content.length,
      word_count := some (pySplit content).length }

/-- `ContentQualityValidator.validate_batch`: per-key application of
`validate_content` over the items of the input dictionary (modelled as
an insertion-ordered association list, as Python dictionaries are). -/
def validate_batch (v : ContentQualityValidator)
    (content_dict : List (List Char × List Char)) :
    List (List Char × QualityReport) :=
  content_dict.map (fun p => (p.1, validate_content v p.2 p.1))

/-- A snapshot of extractor statistics, as `get_extractor_stats` would
return one. -/
structure ExtractorStatsView where
  total_extractions : Nat
  successful_extractions : Nat
  failed_extractions : Nat
deriving DecidableEq

/-- `ContentQualityValidator.get_extractor_stats` evaluates
`self.stats.copy()`, but `ContentQualityValidator.__init__` never
assigns a `stats` attribute and no other code does, so the attribute
lookup raises `AttributeError` on every call.  The `Except` models that
raise. -/
def validatorExtractorStats (_v : ContentQualityValidator) :
    Except String ExtractorStatsView :=
  .error "AttributeError: ContentQualityValidator object has no attribute stats"

/-- The dictionary built by `get_validation_summary` when every entry
evaluates, including the `extractor_stats` entry. -/
structure BatchQualitySummary where
  total_validated : Nat
  valid_content : Nat
  invalid_content : Nat
  success_rate : Rat
  average_quality_score : Rat
  quality_distribution : QualityLevel → Nat
  extractor_stats : ExtractorStatsView

/-- `ContentQualityValidator.get_validation_summary`: the aggregates
(count, valid/invalid split, success rate, mean score, level histogram)
are computed first, then the summary dictionary is built; constructing
its `extractor_stats` entry evaluates `self.get_extractor_stats()`,
whose failure propagates as the call's outcome.  Python `round(x, 2)`
on the mean is omitted as the value is never reached. -/
def get_validation_summary (v : ContentQualityValidator)
    (validations : List (List Char × QualityReport)) :
    Except String BatchQualitySummary :=
  let total := validations.length
  let valid_count := (validations.filter (fun p => p.2.valid)).length
  let dist : QualityLevel → Nat := fun l =>
    (validations.filter (fun p => p.2.quality_level = l)).length
  let avg : Rat :=
    if 0 < total then
      ((validations.map (fun p => (p.2.quality_score : Rat))).sum) / (total : Rat)
    else 0
  match validatorExtractorStats v with
  | .error e => .error e
  | .ok st =>
    .ok { total_validated := total, valid_content := valid_count,
          invalid_content := total - valid_count,
          success_rate := if 0 < total then (valid_count : Rat) / (total : Rat) * 100 else 0,
          average_quality_score := avg,
          quality_distribution := dist, extractor_stats := st }

/-! ## Robust Content Extractor (`robust_content_extractor.py`) -/

/-- The `self.stats` dictionary set up by
`RobustContentExtractor.__init__`. -/
structure ExtractionStats where
  total_extractions : Nat
  successful_extractions : Nat
  failed_extractions : Nat
  jina_successes : Nat
  direct_successes : Nat
  fallback_successes : Nat
deriving DecidableEq

/-- The zeroed statistics of a fresh extractor. -/
def statsInit : ExtractionStats :=
  { total_extractions := 0, successful_extractions := 0,
    failed_extractions := 0, jina_successes := 0, direct_successes := 0,
    fallback_successes := 0 }

/-- The three fetch strategies of the chain. -/
inductive Strategy
  | jina
  | direct
  | fallback
deriving DecidableEq

/-- Oracle environment for the extractor's network effects.  For a given
URL, `jinaBody u = some b` means the Jina Reader request returned HTTP
200 with body `b`; `none` means a non-200 status, a timeout or another
request exception.  `directText u = some t` means the direct GET
returned 200 and the markup-stripping produced raw text `t` (before
`_clean_text`); `fallbackText` likewise for the fallback GET.  `none`
covers non-200 statuses and raised exceptions, which the source's local
`try/except` blocks turn into a `None` result for that tier. -/
structure Env where
  jina_api_key : Option (List Char)
  jinaBody : List Char → Option (List Char)
  directText : List Char → Option (List Char)
  fallbackText : List Char → Option (List Char)

/-- The truncation applied by `_extract_with_jina` to a 200 body:
`content[:15000] + "... [conteúdo truncado]"` when the body exceeds
15000 characters. -/
def jinaTruncate (body : List Char) : List Char :=
  if 15000 < body.length then
    body.take 15000 ++ String.toList "... [conteúdo truncado]"
  else body

/-- `RobustContentExtractor._extract_with_jina`: on a 200 response the
(possibly truncated) body is returned; on any failure, `None`. -/
def extract_with_jina (env : Env) (url : List Char) : Option (List Char) :=
  (env.jinaBody url).map jinaTruncate

/-- The line-filtering and truncation of
`RobustContentExtractor._clean_text` between the two `re.sub` passes
and the final cap: split into lines, strip each, keep lines longer than
10 characters, rejoin with a newline. -/
def cleanJoin (t : List Char) : List Char :=
  List.intercalate ['\n']
    (((splitLines (collapseSpaces (collapseBlank t))).map pyStrip).filter
      (fun l => 10 < l.length))

/-- The marker `"... [truncado]"` appended by `_clean_text` on
truncation. -/
def truncMarker : List Char := String.toList "... [truncado]"

/-- `RobustContentExtractor._clean_text`, translated step by step: the
empty guard, the two `re.sub` passes, line filtering, the 12000-char
cap with marker, and the final `strip`. -/
def clean_text (t : List Char) : List Char :=
  if t = [] then []
  else
    pyStrip
      (if 12000 < (cleanJoin t).length then
        (cleanJoin t).take 12000 ++ truncMarker
      else cleanJoin t)

/-- `RobustContentExtractor._extract_direct`: on a 200 response the
stripped page text goes through `_clean_text` and is returned; on any
failure, `None`. -/
def extract_direct (env : Env) (url : List Char) : Option (List Char) :=
  (env.directText url).map clean_text

/-- `RobustContentExtractor._extract_fallback`: like the direct tier but
with only the critical elements stripped, and the cleaned text is
returned only when longer than 50 characters. -/
def extract_fallback (env : Env) (url : List Char) : Option (List Char) :=
  (env.fallbackText url).bind fun raw =>
    if 50 < (clean_text raw).length then some (clean_text raw) else none

/-- The per-tier success bar of `extract_content`:
`content and len(content.strip()) > bar`. -/
def passesBar (bar : Nat) (c : List Char) : Prop :=
  c ≠ [] ∧ bar < (pyStrip c).length

instance (bar : Nat) (c : List Char) : Decidable (passesBar bar c) :=
  inferInstanceAs (Decidable (And _ _))

/-- The observable outcome of one `extract_content` call: the returned
content, which tier succeeded (the source logs it), the updated shared
statistics, and — as ghost instrumentation for the zero-network-calls
property — how many HTTP requests (`session.get`) were issued. -/
structure ExtractOutcome where
  content : Option (List Char)
  strategyUsed : Option Strategy
  stats : ExtractionStats
  netCalls : Nat
deriving DecidableEq

/-- Tier three of `extract_content` plus the exhaustion accounting:
the fallback strategy and, if it misses, the failure counter.  `calls`
is the request count accumulated so far; the tier issues exactly one
request when attempted. -/
def tryFallback (env : Env) (st : ExtractionStats) (url : List Char)
    (calls : Nat) : ExtractOutcome :=
  match extract_fallback env url with
  | some c =>
    if passesBar 50 c then
      { content := some c, strategyUsed := some .fallback,
        stats := { st with
          successful_extractions := st.successful_extractions + 1,
          fallback_successes := st.fallback_successes + 1 },
        netCalls := calls + 1 }
    else
      { content := none, strategyUsed := none,
        stats := { st with failed_extractions := st.failed_extractions + 1 },
        netCalls := calls + 1 }
  | none =>
    { content := none, strategyUsed := none,
      stats := { st with failed_extractions := st.failed_extractions + 1 },
      netCalls := calls + 1 }

/-- Tier two of `extract_content`: the direct strategy, falling through
to the fallback tier. -/
def tryDirect (env : Env) (st : ExtractionStats) (url : List Char)
    (calls : Nat) : ExtractOutcome :=
  match extract_direct env url with
  | some c =>
    if passesBar 100 c then
      { content := some c, strategyUsed := some .direct,
        stats := { st with
          successful_extractions := st.successful_extractions + 1,
          direct_successes := st.direct_successes + 1 },
        netCalls := calls + 1 }
    else
      tryFallback env st url (calls + 1)
  | none => tryFallback env st url (calls + 1)

/-- The URL guard of `extract_content`:
`url and url.startswith(('http://', 'https://'))`. -/
def validUrl (url : List Char) : Bool :=
  !url.isEmpty &&
    (url.take 7 == String.toList "http://" ||
     url.take 8 == String.toList "https://")

/-- `RobustContentExtractor.extract_content`: the URL guard (rejection
happens before the attempt counter and before any request), the attempt
counter, then the three-tier chain with its per-tier bars and counter
updates.  The helper tiers never raise — each catches its own
exceptions — so the source's outer `except` branch is unreachable and
has no counterpart here. -/
def extract_content (env : Env) (st : ExtractionStats) (url : List Char) :
    ExtractOutcome :=
  if validUrl url then
    let st0 := { st with total_extractions := st.total_extractions + 1 }
    match env.jina_api_key with
    | some _ =>
      (match extract_with_jina env url with
       | some c =>
         if passesBar 100 c then
           { content := some c, strategyUsed := some .jina,
             stats := { st0 with
               successful_extractions := st0.successful_extractions + 1,
               jina_successes := st0.jina_successes + 1 },
             netCalls := 1 }
         else tryDirect env st0 url 1
       | none => tryDirect env st0 url 1)
    | none => tryDirect env st0 url 0
  else
    { content := none, strategyUsed := none, stats := st, netCalls := 0 }

/-- A sequence of `extract_content` calls threading the shared
statistics, as the stats invariant quantifies over. -/
def runAll (env : Env) (st : ExtractionStats) (urls : List (List Char)) :
    ExtractionStats :=
  match urls with
  | [] => st
  | u :: us => runAll env (extract_content env st u).stats us

/-- Python dictionary insertion `d[k] = v` on an insertion-ordered
association list: replace the value of an existing key, else append. -/
def dictInsert (d : List (List Char × Option (List Char))) (k : List Char)
    (v : Option (List Char)) : List (List Char × Option (List Char)) :=
  match d with
  | [] => [(k, v)]
  | (k', v') :: rest =>
    if k' = k then (k', v) :: rest else (k', v') :: dictInsert rest k v

/-- The collection loop of `batch_extract`: one `extract_content` task
per submitted URL, each result stored under its URL.  The worker pool's
completion order only permutes the insertion order of distinct keys;
this embedding fixes submission order, which the key-set property is
independent of. -/
def batchGo (env : Env) (st : ExtractionStats)
    (d : List (List Char × Option (List Char))) :
    List (List Char) → List (List Char × Option (List Char)) × ExtractionStats
  | [] => (d, st)
  | u :: us =>
    let r := extract_content env st u
    batchGo env r.stats (dictInsert d u r.content) us

/-- `RobustContentExtractor.batch_extract`: returns the result
dictionary together with the updated shared statistics. -/
def batch_extract (env : Env) (st : ExtractionStats)
    (urls : List (List Char)) :
    List (List Char × Option (List Char)) × ExtractionStats :=
  batchGo env st [] urls

/-- The per-strategy minimum content threshold of the chain: the two
primary tiers require strictly more than 100 characters of stripped
content, the fallback tier more than 50. -/
def stratMin : Strategy → Nat
  | .jina => 100
  | .direct => 100
  | .fallback => 50

/-- An environment with no Jina key and every request failing: all
tiers miss. -/
def envNone : Env :=
  { jina_api_key := none, jinaBody := fun _ => none,
    directText := fun _ => none, fallbackText := fun _ => none }

/-- An environment where only the fallback tier yields text: 60
characters, enough to clear the 50-character bar. -/
def envFB : Env :=
  { jina_api_key := none, jinaBody := fun _ => none,
    directText := fun _ => none,
    fallbackText := fun _ => some (List.replicate 60 'a') }

/-- A well-formed sample URL. -/
def sampleUrl : List Char := String.toList "https://example.com"

/-- The literal head of the scenario-B test content: the word
`mercado` four times and five percentage mentions. -/
def cexPre : List Char :=
  String.toList "mercado mercado mercado mercado 1% 2% 3% 4% 5% "

/-- Scenario-B test content: 2500 characters, five percentage matches,
`mercado` four times, padded with `a` to length 2500. -/
def cexContent : List Char := cexPre ++ List.replicate 2453 'a'

/-- Scenario-B test URL, on the `ibge.gov.br` domain. -/
def cexUrl : List Char := String.toList "https://www.ibge.gov.br/pesquisa"

/-! ## Shared lemmas -/

/-- Stripping never lengthens a string. -/
lemma pyStrip_length_le (l : List Char) : (pyStrip l).length ≤ l.length := by
  unfold pyStrip
  calc ((l.dropWhile isPySpace).reverse.dropWhile isPySpace).reverse.length
      = ((l.dropWhile isPySpace).reverse.dropWhile isPySpace).length := by
        simp
    _ ≤ (l.dropWhile isPySpace).reverse.length :=
        (List.dropWhile_suffix _).length_le
    _ = (l.dropWhile isPySpace).length := by simp
    _ ≤ l.length := (List.dropWhile_suffix _).length_le

/-- On non-empty content the score is the sum of the five sub-scores. -/
lemma validate_score_eq (v : ContentQualityValidator) (content url : List Char)
    (h : content ≠ []) :
    (validate_content v content url).quality_score =
      lengthPoints v content + densityPoints content + dataPoints content +
        sourcePoints url + relevancePoints content := by
  simp [validate_content, h]

/-- The length sub-score never exceeds its cap. -/
lemma lengthPoints_le (v : ContentQualityValidator) (c : List Char) :
    lengthPoints v c ≤ 25 := by
  unfold lengthPoints; split_ifs <;> omega

/-- The density sub-score never exceeds its cap. -/
lemma densityPoints_le (c : List Char) : densityPoints c ≤ 25 := by
  unfold densityPoints; split_ifs <;> omega

/-- The structured-data sub-score never exceeds its cap. -/
lemma dataPoints_le (c : List Char) : dataPoints c ≤ 20 := by
  unfold dataPoints; split_ifs <;> omega

/-- The source-trust sub-score never exceeds its cap. -/
lemma sourcePoints_le (u : List Char) : sourcePoints u ≤ 15 := by
  unfold sourcePoints; split_ifs <;> omega

/-- The source-trust sub-score always awards at least 5 points. -/
lemma sourcePoints_ge (u : List Char) : 5 ≤ sourcePoints u := by
  unfold sourcePoints; split_ifs <;> omega

/-- The relevance sub-score never exceeds its cap. -/
lemma relevancePoints_le (c : List Char) : relevancePoints c ≤ 15 := by
  unfold relevancePoints; split_ifs <;> omega

/-! ## Claims -/

/-- Claim C1: the claim states that `get_validation_summary` returns a
complete batch summary for every non-empty mapping.  The code cannot:
`ContentQualityValidator` never initializes a `stats` attribute, yet
the summary's `extractor_stats` entry calls `get_extractor_stats`,
which reads `self.stats`; every call therefore raises
`AttributeError`, modelled here as an `Except.error` outcome for every
input, non-empty mappings included. -/
theorem C1_summary_raises (validations : List (List Char × QualityReport)) :
    get_validation_summary content_quality_validator validations =
      Except.error
        "AttributeError: ContentQualityValidator object has no attribute stats" :=
  rfl

/-- Claim C5: on non-empty content the quality score equals the sum of
the five sub-scores, each bounded by its cap (25, 25, 20, 15, 15), so
the total lies in [0, 100]. -/
theorem C5_score_decomposition (content url : List Char) (h : content ≠ []) :
    (validate_content content_quality_validator content url).quality_score =
      lengthPoints content_quality_validator content + densityPoints content +
        dataPoints content + sourcePoints url + relevancePoints content ∧
    lengthPoints content_quality_validator content ≤ 25 ∧
    densityPoints content ≤ 25 ∧ dataPoints content ≤ 20 ∧
    sourcePoints url ≤ 15 ∧ relevancePoints content ≤ 15 ∧
    (validate_content content_quality_validator content url).quality_score ≤ 100 := by
  have hs := validate_score_eq content_quality_validator content url h
  refine ⟨hs, lengthPoints_le _ _, densityPoints_le _, dataPoints_le _,
    sourcePoints_le _, relevancePoints_le _, ?_⟩
  have h1 := lengthPoints_le content_quality_validator content
  have h2 := densityPoints_le content
  have h3 := dataPoints_le content
  have h4 := sourcePoints_le url
  have h5 := relevancePoints_le content
  omega

/-- Witness for C5 at the one-character content `"a"`. -/
theorem C5_score_decomposition_witness :
    String.toList "a" ≠ [] ∧
    ((validate_content content_quality_validator (String.toList "a") sampleUrl).quality_score =
      lengthPoints content_quality_validator (String.toList "a") +
        densityPoints (String.toList "a") + dataPoints (String.toList "a") +
        sourcePoints sampleUrl + relevancePoints (String.toList "a") ∧
    lengthPoints content_quality_validator (String.toList "a") ≤ 25 ∧
    densityPoints (String.toList "a") ≤ 25 ∧ dataPoints (String.toList "a") ≤ 20 ∧
    sourcePoints sampleUrl ≤ 15 ∧ relevancePoints (String.toList "a") ≤ 15 ∧
    (validate_content content_quality_validator (String.toList "a") sampleUrl).quality_score ≤ 100) :=
  ⟨by decide, C5_score_decomposition (String.toList "a") sampleUrl (by decide)⟩

/-- Claim C9 (counterexample): for the empty content the report lacks
the `strengths`, `content_length` and `word_count` keys, against the
claim that every input yields a report containing all eight fields. -/
theorem C9_cex :
    (validate_content content_quality_validator [] sampleUrl).strengths = none ∧
    (validate_content content_quality_validator [] sampleUrl).content_length = none ∧
    (validate_content content_quality_validator [] sampleUrl).word_count = none := by
  decide

/-- Claim C9 (amended): `validate_content` is total, and on non-empty
content the report carries every field: the strengths list is present
and the length and word-count fields hold the content length and the
Python word count. -/
theorem C9_report_fields (content url : List Char) (h : content ≠ []) :
    (validate_content content_quality_validator content url).strengths =
      some (reportStrengths content_quality_validator content url) ∧
    (validate_content content_quality_validator content url).content_length =
      some content.length ∧
    (validate_content content_quality_validator content url).word_count =
      some (pySplit content).length := by
  simp [validate_content, h]

/-- Witness for C9 at the one-character content `"a"`. -/
theorem C9_report_fields_witness :
    String.toList "a" ≠ [] ∧
    ((validate_content content_quality_validator (String.toList "a") sampleUrl).strengths =
      some (reportStrengths content_quality_validator (String.toList "a") sampleUrl) ∧
    (validate_content content_quality_validator (String.toList "a") sampleUrl).content_length =
      some (String.toList "a").length ∧
    (validate_content content_quality_validator (String.toList "a") sampleUrl).word_count =
      some (pySplit (String.toList "a")).length) :=
  ⟨by decide, C9_report_fields (String.toList "a") sampleUrl (by decide)⟩

/-- Claim C10: the source-trust factor awards at least 5 points on any
URL, so every non-empty content scores at least 5 and its level is
never `invalid`; a zero score occurs only for empty content. -/
theorem C10_min_score (content url : List Char) (h : content ≠ []) :
    5 ≤ (validate_content content_quality_validator content url).quality_score ∧
    (validate_content content_quality_validator content url).quality_level ≠
      QualityLevel.invalid := by
  constructor
  · rw [validate_score_eq _ _ _ h]
    have := sourcePoints_ge url
    omega
  · simp only [validate_content, if_neg h]
    split_ifs <;> simp

/-- Witness for C10 at the one-character content `"a"`. -/
theorem C10_min_score_witness :
    String.toList "a" ≠ [] ∧
    (5 ≤ (validate_content content_quality_validator (String.toList "a") sampleUrl).quality_score ∧
    (validate_content content_quality_validator (String.toList "a") sampleUrl).quality_level ≠
      QualityLevel.invalid) :=
  ⟨by decide, C10_min_score (String.toList "a") sampleUrl (by decide)⟩

/-- Key membership after a dictionary insertion. -/
lemma mem_keys_dictInsert (d : List (List Char × Option (List Char)))
    (k a : List Char) (v : Option (List Char)) :
    a ∈ (dictInsert d k v).map Prod.fst ↔ a ∈ d.map Prod.fst ∨ a = k := by
  induction d with
  | nil => simp [dictInsert]
  | cons p rest ih =>
    by_cases hk : p.1 = k
    · simp [dictInsert, hk]
      tauto
    · simp [dictInsert, hk, ih]
      tauto

/-- Dictionary insertion preserves key distinctness. -/
lemma nodup_keys_dictInsert (d : List (List Char × Option (List Char)))
    (k : List Char) (v : Option (List Char))
    (h : (d.map Prod.fst).Nodup) :
    ((dictInsert d k v).map Prod.fst).Nodup := by
  induction d with
  | nil => simp [dictInsert]
  | cons p rest ih =>
    obtain ⟨k', v'⟩ := p
    simp only [List.map_cons, List.nodup_cons] at h
    by_cases hk : k' = k
    · have hd : dictInsert ((k', v') :: rest) k v = (k', v) :: rest := by
        simp [dictInsert, hk]
      rw [hd]
      simp only [List.map_cons, List.nodup_cons]
      exact ⟨h.1, h.2⟩
    · have hd : dictInsert ((k', v') :: rest) k v =
          (k', v') :: dictInsert rest k v := by
        simp [dictInsert, hk]
      rw [hd]
      simp only [List.map_cons, List.nodup_cons]
      refine ⟨?_, ih h.2⟩
      rw [mem_keys_dictInsert]
      push_neg
      exact ⟨h.1, hk⟩

/-- The fold of `batch_extract` only ever adds the submitted URLs as
keys, and keeps keys distinct. -/
lemma batchGo_keys (env : Env) (urls : List (List Char)) :
    ∀ (st : ExtractionStats) (d : List (List Char × Option (List Char))),
      (∀ a, a ∈ (batchGo env st d urls).1.map Prod.fst ↔
        a ∈ d.map Prod.fst ∨ a ∈ urls) ∧
      ((d.map Prod.fst).Nodup → ((batchGo env st d urls).1.map Prod.fst).Nodup) := by
  induction urls with
  | nil => intro st d; simp [batchGo]
  | cons u us ih =>
    intro st d
    constructor
    · intro a
      rw [batchGo, ((ih _ _).1 a), mem_keys_dictInsert]
      simp
      tauto
    · intro hd
      rw [batchGo]
      exact (ih _ _).2 (nodup_keys_dictInsert _ _ _ hd)

/-- Claim C7: the key set of the mapping returned by `batch_extract`
is exactly the set of input URLs — every input URL appears, duplicates
collapse to one entry, no key is dropped, and every entry is an
explicit optional content value. -/
theorem C7_batch_keys (env : Env) (st : ExtractionStats)
    (urls : List (List Char)) :
    (∀ u, u ∈ (batch_extract env st urls).1.map Prod.fst ↔ u ∈ urls) ∧
    ((batch_extract env st urls).1.map Prod.fst).Nodup := by
  have h := batchGo_keys env urls st []
  refine ⟨fun u => ?_, h.2 (by simp)⟩
  rw [batch_extract, (h.1 u)]
  simp

/-- Statistics accounting of the fallback tier: the attempt counter is
untouched and exactly one of the success or failure counters is
incremented. -/
lemma tryFallback_stats (env : Env) (st : ExtractionStats) (url : List Char)
    (calls : Nat) :
    (tryFallback env st url calls).stats.total_extractions = st.total_extractions ∧
    (tryFallback env st url calls).stats.successful_extractions +
      (tryFallback env st url calls).stats.failed_extractions =
      st.successful_extractions + st.failed_extractions + 1 := by
  unfold tryFallback
  cases h : extract_fallback env url with
  | none => simp; omega
  | some c => by_cases hp : passesBar 50 c <;> (simp [hp]; omega)

/-- Statistics accounting of the direct tier and everything after it. -/
lemma tryDirect_stats (env : Env) (st : ExtractionStats) (url : List Char)
    (calls : Nat) :
    (tryDirect env st url calls).stats.total_extractions = st.total_extractions ∧
    (tryDirect env st url calls).stats.successful_extractions +
      (tryDirect env st url calls).stats.failed_extractions =
      st.successful_extractions + st.failed_extractions + 1 := by
  unfold tryDirect
  cases h : extract_direct env url with
  | none => exact tryFallback_stats env st url (calls + 1)
  | some c =>
    by_cases hp : passesBar 100 c
    · simp [hp]; omega
    · simp only [hp, if_false]
      exact tryFallback_stats env st url (calls + 1)

/-- One `extract_content` call on a valid URL bumps the attempt counter
by one and exactly one of the success or failure counters by one. -/
lemma extract_stats_valid (env : Env) (st : ExtractionStats) (url : List Char)
    (h : validUrl url = true) :
    (extract_content env st url).stats.total_extractions = st.total_extractions + 1 ∧
    (extract_content env st url).stats.successful_extractions +
      (extract_content env st url).stats.failed_extractions =
      st.successful_extractions + st.failed_extractions + 1 := by
  unfold extract_content
  rw [if_pos h]
  cases hk : env.jina_api_key with
  | none => exact tryDirect_stats env _ url 0
  | some key =>
    cases hj : extract_with_jina env url with
    | none => exact tryDirect_stats env _ url 1
    | some c =>
      by_cases hp : passesBar 100 c
      · simp [hp]; omega
      · simp only [hp, if_false]
        exact tryDirect_stats env _ url 1

/-- Accumulated statistics over a sequence of calls on valid URLs. -/
lemma runAll_stats (env : Env) (urls : List (List Char)) :
    ∀ st : ExtractionStats, (∀ u ∈ urls, validUrl u = true) →
      (runAll env st urls).total_extractions =
        st.total_extractions + urls.length ∧
      (runAll env st urls).successful_extractions +
        (runAll env st urls).failed_extractions =
        st.successful_extractions + st.failed_extractions + urls.length := by
  induction urls with
  | nil => intro st _; simp [runAll]
  | cons u us ih =>
    intro st h
    have hu : validUrl u = true := h u (by simp)
    obtain ⟨h1, h2⟩ := extract_stats_valid env st u hu
    obtain ⟨h3, h4⟩ :=
      ih (extract_content env st u).stats (fun x hx => h x (by simp [hx]))
    rw [runAll]
    simp only [List.length_cons]
    omega

/-- Claim C2 (counterexample): one `extract_content` call on the
invalid URL `"ftp://x"` leaves `total_extractions` at 0, not 1, so the
invariant `totalAttempts == N` fails for sequences containing invalid
URLs. -/
theorem C2_cex :
    (extract_content envNone statsInit (String.toList "ftp://x")).stats.total_extractions = 0 ∧
    ¬((extract_content envNone statsInit (String.toList "ftp://x")).stats.total_extractions = 1) := by
  decide

/-- Claim C2 (amended): after N `extract_content` calls on URLs that
pass the http/https guard, the fresh extractor's statistics satisfy
`totalAttempts = N` and `succeeded + failed = N`; calls on invalid
URLs leave every counter unchanged and so do not count towards N. -/
theorem C2_stats_valid_urls (env : Env) (urls : List (List Char))
    (h : ∀ u ∈ urls, validUrl u = true) :
    (runAll env statsInit urls).total_extractions = urls.length ∧
    (runAll env statsInit urls).successful_extractions +
      (runAll env statsInit urls).failed_extractions = urls.length := by
  have := runAll_stats env urls statsInit h
  simpa [statsInit] using this

/-- Witness for C2 on a two-URL sequence that misses every tier. -/
theorem C2_stats_valid_urls_witness :
    (∀ u ∈ [String.toList "http://a.example", String.toList "https://b.example"],
      validUrl u = true) ∧
    ((runAll envNone statsInit
        [String.toList "http://a.example", String.toList "https://b.example"]).total_extractions = 2 ∧
      (runAll envNone statsInit
        [String.toList "http://a.example", String.toList "https://b.example"]).successful_extractions +
      (runAll envNone statsInit
        [String.toList "http://a.example", String.toList "https://b.example"]).failed_extractions = 2) :=
  ⟨by decide, C2_stats_valid_urls envNone _ (by decide)⟩

/-- Claim C3 (counterexample): the rejection of the malformed URL
`"ftp://x"` returns `None` with zero network calls, but the failure
counter stays at 0 — the rejection is not recorded as a failure, against
the claim. -/
theorem C3_cex :
    (extract_content envNone statsInit (String.toList "ftp://x")).content = none ∧
    (extract_content envNone statsInit (String.toList "ftp://x")).netCalls = 0 ∧
    (extract_content envNone statsInit (String.toList "ftp://x")).stats.failed_extractions = 0 ∧
    ¬((extract_content envNone statsInit (String.toList "ftp://x")).stats.failed_extractions =
        statsInit.failed_extractions + 1) := by
  decide

/-- Claim C3 (amended): a URL failing the http/https guard is rejected
immediately: `extract_content` returns `None`, issues zero network
requests, and leaves the statistics — including the failure counter —
completely unchanged. -/
theorem C3_invalid_rejected (env : Env) (st : ExtractionStats) (url : List Char)
    (h : validUrl url = false) :
    extract_content env st url =
      { content := none, strategyUsed := none, stats := st, netCalls := 0 } := by
  simp [extract_content, h]

/-- Witness for C3 at the malformed URL `"ftp://x"`. -/
theorem C3_invalid_rejected_witness :
    validUrl (String.toList "ftp://x") = false ∧
    extract_content envNone statsInit (String.toList "ftp://x") =
      { content := none, strategyUsed := none, stats := statsInit, netCalls := 0 } :=
  ⟨by decide, C3_invalid_rejected envNone statsInit _ (by decide)⟩

/-- Every strategy's bar is at least 50. -/
lemma stratMin_ge (t : Strategy) : 50 ≤ stratMin t := by
  cases t <;> simp [stratMin]

/-- A fallback-tier success clears the 50-character stripped bar. -/
lemma tryFallback_some (env : Env) (st : ExtractionStats) (url : List Char)
    (calls : Nat) (c : List Char)
    (h : (tryFallback env st url calls).content = some c) :
    (tryFallback env st url calls).strategyUsed = some .fallback ∧
      50 < (pyStrip c).length := by
  unfold tryFallback at h ⊢
  cases hf : extract_fallback env url with
  | none => simp [hf] at h
  | some c' =>
    simp only [hf] at h ⊢
    by_cases hp : passesBar 50 c'
    · simp only [hp, if_true] at h ⊢
      simp at h
      subst h
      exact ⟨by simp, hp.2⟩
    · simp [hp] at h

/-- A success from tier two onwards clears its strategy's stripped bar. -/
lemma tryDirect_some (env : Env) (st : ExtractionStats) (url : List Char)
    (calls : Nat) (c : List Char)
    (h : (tryDirect env st url calls).content = some c) :
    ∃ t, (tryDirect env st url calls).strategyUsed = some t ∧
      stratMin t < (pyStrip c).length := by
  unfold tryDirect at h ⊢
  cases hd : extract_direct env url with
  | none =>
    simp only [hd] at h ⊢
    obtain ⟨h1, h2⟩ := tryFallback_some env st url (calls + 1) c h
    exact ⟨.fallback, h1, h2⟩
  | some c' =>
    simp only [hd] at h ⊢
    by_cases hp : passesBar 100 c'
    · simp only [hp, if_true] at h ⊢
      simp at h
      subst h
      exact ⟨.direct, by simp, hp.2⟩
    · simp only [hp, if_false] at h ⊢
      obtain ⟨h1, h2⟩ := tryFallback_some env st url (calls + 1) c h
      exact ⟨.fallback, h1, h2⟩

/-- Any content returned by `extract_content` cleared the stripped bar
of the strategy that produced it. -/
lemma extract_content_some (env : Env) (st : ExtractionStats) (url : List Char)
    (c : List Char) (h : (extract_content env st url).content = some c) :
    ∃ t, (extract_content env st url).strategyUsed = some t ∧
      stratMin t < (pyStrip c).length := by
  unfold extract_content at h ⊢
  by_cases hv : validUrl url
  · rw [if_pos hv] at h ⊢
    cases hk : env.jina_api_key with
    | none =>
      simp only [hk] at h ⊢
      exact tryDirect_some env _ url 0 c h
    | some key =>
      simp only [hk] at h ⊢
      cases hj : extract_with_jina env url with
      | none =>
        simp only [hj] at h ⊢
        exact tryDirect_some env _ url 1 c h
      | some c' =>
        simp only [hj] at h ⊢
        by_cases hp : passesBar 100 c'
        · simp only [hp, if_true] at h ⊢
          simp at h
          subst h
          exact ⟨.jina, by simp, hp.2⟩
        · simp only [hp, if_false] at h ⊢
          exact tryDirect_some env _ url 1 c h
  · rw [if_neg hv] at h
    simp at h

/-- Claim C4: `extract_content` returns `None` or a string of at least
50 characters, and returned content is at least as long as the minimum
threshold of the strategy that produced it (100 for the remote-render
and direct strategies, 50 for the fallback strategy). -/
theorem C4_min_length (env : Env) (st : ExtractionStats) (url : List Char)
    (c : List Char) (h : (extract_content env st url).content = some c) :
    50 ≤ c.length ∧
    ∀ t, (extract_content env st url).strategyUsed = some t →
      stratMin t ≤ c.length := by
  obtain ⟨t, ht, hlt⟩ := extract_content_some env st url c h
  have hstrip := pyStrip_length_le c
  have h50 := stratMin_ge t
  refine ⟨by omega, ?_⟩
  intro t' ht'
  rw [ht] at ht'
  injection ht' with he
  subst he
  omega

/-- Witness for C4: a fallback-tier success with 60 characters. -/
theorem C4_min_length_witness :
    (extract_content envFB statsInit sampleUrl).content =
      some (List.replicate 60 'a') ∧
    (50 ≤ (List.replicate 60 'a').length ∧
    ∀ t, (extract_content envFB statsInit sampleUrl).strategyUsed = some t →
      stratMin t ≤ (List.replicate 60 'a').length) :=
  ⟨by decide, C4_min_length envFB statsInit sampleUrl _ (by decide)⟩

/-- On non-empty content the quality level is the threshold ladder over
the summed score. -/
lemma validate_level_eq (v : ContentQualityValidator) (content url : List Char)
    (h : content ≠ []) :
    (validate_content v content url).quality_level =
      (if v.th_excellent ≤ lengthPoints v content + densityPoints content +
          dataPoints content + sourcePoints url + relevancePoints content then
        QualityLevel.excellent
      else if v.th_good ≤ lengthPoints v content + densityPoints content +
          dataPoints content + sourcePoints url + relevancePoints content then
        QualityLevel.good
      else if v.th_fair ≤ lengthPoints v content + densityPoints content +
          dataPoints content + sourcePoints url + relevancePoints content then
        QualityLevel.fair
      else QualityLevel.poor) := by
  simp [validate_content, h]

/-- The scenario-B head is 47 characters long. -/
lemma cex_pre_len : cexPre.length = 47 := by decide

/-- The scenario-B content is 2500 characters long. -/
lemma cex_len : cexContent.length = 2500 := by
  show (cexPre ++ List.replicate 2453 'a').length = 2500
  rw [List.length_append, List.length_replicate, cex_pre_len]

set_option maxRecDepth 40000 in
/-- The scenario-B content has exactly five structured-data matches:
its five percentage mentions. -/
lemma cex_data : dataMatches cexContent = 5 := by decide

set_option maxRecDepth 40000 in
/-- Only one relevance keyword (`mercado`) occurs in the scenario-B
content, so the distinct-keyword count is 1 despite four occurrences. -/
lemma cex_rel : relevanceMatches cexContent = 1 := by decide

set_option maxRecDepth 40000 in
/-- The scenario-B content has only 10 words, so the density sub-score
is 0. -/
lemma cex_density : densityPoints cexContent = 0 := by decide

/-- The scenario-B URL is on a trusted government domain. -/
lemma cex_trust :
    trustedDomains.any (fun t => hasInfix t (domainOf cexUrl)) = true := by
  decide

/-- Scenario-B scoring: length 25, data 15, trust 15, relevance 0, so
the score is 55 plus the density sub-score and the level is `good`
exactly when the density sub-score reaches 15. -/
lemma scenB_core (content url : List Char)
    (hlen : content.length = 2500)
    (hdata : dataMatches content = 5)
    (hrel : relevanceMatches content = 1)
    (htrust : trustedDomains.any (fun t => hasInfix t (domainOf url)) = true) :
    (validate_content content_quality_validator content url).quality_score =
      55 + densityPoints content ∧
    (validate_content content_quality_validator content url).quality_level =
      (if 15 ≤ densityPoints content then QualityLevel.good
       else QualityLevel.fair) := by
  have hne : content ≠ [] := by
    intro h
    rw [h] at hlen
    simp at hlen
  have hLp : lengthPoints content_quality_validator content = 25 := by
    unfold lengthPoints
    rw [hlen]
    norm_num
  have hDp : dataPoints content = 15 := by
    unfold dataPoints
    rw [hdata]
    norm_num
  have hRp : relevancePoints content = 0 := by
    unfold relevancePoints
    rw [hrel]
    norm_num
  have hSp : sourcePoints url = 15 := by
    unfold sourcePoints
    rw [htrust]
    simp
  have hd25 := densityPoints_le content
  constructor
  · rw [validate_score_eq _ _ _ hne, hLp, hDp, hSp, hRp]
    omega
  · rw [validate_level_eq _ _ _ hne, hLp, hDp, hSp, hRp]
    by_cases h15 : 15 ≤ densityPoints content
    · rw [if_pos h15]
      rw [if_neg (by simp [content_quality_validator]; omega),
          if_pos (by simp [content_quality_validator]; omega)]
    · rw [if_neg h15]
      rw [if_neg (by simp [content_quality_validator]; omega),
          if_neg (by simp [content_quality_validator]; omega),
          if_pos (by simp [content_quality_validator]; omega)]

/-- Claim C6 (counterexample): the concrete scenario-B content (2500
characters, five percentage mentions, `mercado` four times, url on
`ibge.gov.br`, ten words) scores 55 — below the 58 the claim demands
even at density 0 — and its level is `fair`, not at least `good`,
because the relevance factor counts distinct keywords, awarding 0 for
the single keyword `mercado`. -/
theorem C6_cex :
    (validate_content content_quality_validator cexContent cexUrl).quality_score = 55 ∧
    ¬(58 ≤ (validate_content content_quality_validator cexContent cexUrl).quality_score) ∧
    (validate_content content_quality_validator cexContent cexUrl).quality_level =
      QualityLevel.fair := by
  obtain ⟨h1, h2⟩ := scenB_core cexContent cexUrl cex_len cex_data cex_rel cex_trust
  rw [cex_density] at h1 h2
  norm_num at h1 h2
  exact ⟨h1, by omega, h2⟩

/-- Claim C6 (amended): for 2500-character content whose only
structured-data matches are five percentage mentions and whose only
relevance keyword is `mercado` (the factor counts distinct keywords
present, not occurrences, so `mercado` four times contributes one hit
and 0 points), on a trusted domain, the score is 25 (length) + 15
(data) + 15 (trust) + 0 (relevance) plus the density sub-score, and
the level is at least `good` exactly when the density sub-score
reaches 15 (at least 75 words). -/
theorem C6_scenarioB (content url : List Char)
    (hlen : content.length = 2500)
    (hdata : dataMatches content = 5)
    (hrel : relevanceMatches content = 1)
    (htrust : trustedDomains.any (fun t => hasInfix t (domainOf url)) = true) :
    (validate_content content_quality_validator content url).quality_score =
      55 + densityPoints content ∧
    (validate_content content_quality_validator content url).quality_level =
      (if 15 ≤ densityPoints content then QualityLevel.good
       else QualityLevel.fair) :=
  scenB_core content url hlen hdata hrel htrust

/-- Witness for C6 at the concrete scenario-B content. -/
theorem C6_scenarioB_witness :
    cexContent.length = 2500 ∧ dataMatches cexContent = 5 ∧
    relevanceMatches cexContent = 1 ∧
    trustedDomains.any (fun t => hasInfix t (domainOf cexUrl)) = true ∧
    ((validate_content content_quality_validator cexContent cexUrl).quality_score =
      55 + densityPoints cexContent ∧
    (validate_content content_quality_validator cexContent cexUrl).quality_level =
      (if 15 ≤ densityPoints cexContent then QualityLevel.good
       else QualityLevel.fair)) :=
  ⟨cex_len, cex_data, cex_rel, cex_trust,
    C6_scenarioB cexContent cexUrl cex_len cex_data cex_rel cex_trust⟩

/-- The blank-line collapse leaves newline-free text unchanged. -/
lemma collapseBlankGo_rep : ∀ (f n : Nat),
    collapseBlankGo f (List.replicate n 'a') = List.replicate n 'a' := by
  intro f
  induction f with
  | zero => intro n; rfl
  | succ f ih =>
    intro n
    cases n with
    | zero => rfl
    | succ m =>
      rw [List.replicate_succ]
      show (if 'a' = '\n' then _ else 'a' :: collapseBlankGo f (List.replicate m 'a')) = _
      rw [if_neg (by decide), ih m, ← List.replicate_succ]

/-- The space collapse leaves space-free text unchanged. -/
lemma collapseSpacesGo_rep : ∀ (f n : Nat),
    collapseSpacesGo f (List.replicate n 'a') = List.replicate n 'a' := by
  intro f
  induction f with
  | zero => intro n; rfl
  | succ f ih =>
    intro n
    cases n with
    | zero => rfl
    | succ m =>
      rw [List.replicate_succ]
      show (if 'a' = ' ' then _ else 'a' :: collapseSpacesGo f (List.replicate m 'a')) = _
      rw [if_neg (by decide), ih m, ← List.replicate_succ]

/-- Splitting newline-free text yields a single line. -/
lemma splitLinesAux_rep : ∀ (n : Nat) (acc : List Char),
    n ≠ 0 ∨ acc ≠ [] →
    splitLinesAux (List.replicate n 'a') acc = [acc.reverse ++ List.replicate n 'a'] := by
  intro n
  induction n with
  | zero =>
    intro acc h
    have hacc : acc ≠ [] := by tauto
    show (if acc = [] then [] else [acc.reverse]) = _
    rw [if_neg hacc]
    simp
  | succ m ih =>
    intro acc _
    rw [List.replicate_succ]
    show splitLinesAux (List.replicate m 'a') ('a' :: acc) = _
    rw [ih ('a' :: acc) (Or.inr (by simp))]
    simp

/-- Dropping leading whitespace leaves an all-`a` text unchanged. -/
lemma dropWhile_rep_a : ∀ n : Nat,
    List.dropWhile isPySpace (List.replicate n 'a') = List.replicate n 'a' := by
  intro n
  cases n with
  | zero => rfl
  | succ m =>
    rw [List.replicate_succ, List.dropWhile_cons, if_neg (by decide)]

/-- Stripping leaves an all-`a` text unchanged. -/
lemma pyStrip_rep_a (n : Nat) :
    pyStrip (List.replicate n 'a') = List.replicate n 'a' := by
  unfold pyStrip
  rw [dropWhile_rep_a, List.reverse_replicate, dropWhile_rep_a,
    List.reverse_replicate]

/-- Joining a single line with newlines is the identity. -/
lemma intercalate_single (x : List Char) :
    List.intercalate ['\n'] [x] = x := by
  simp [List.intercalate]

/-- The pre-truncation pipeline of `_clean_text` leaves a long all-`a`
text unchanged: no blank lines, no space runs, one line longer than 10
characters. -/
lemma cleanJoin_rep (n : Nat) (h10 : 10 < n) :
    cleanJoin (List.replicate n 'a') = List.replicate n 'a' := by
  unfold cleanJoin collapseBlank collapseSpaces splitLines
  rw [collapseBlankGo_rep, collapseSpacesGo_rep,
    splitLinesAux_rep n [] (Or.inl (by omega))]
  simp only [List.reverse_nil, List.nil_append, List.map_cons, List.map_nil,
    pyStrip_rep_a]
  rw [show List.filter (fun l => decide (10 < l.length)) [List.replicate n 'a'] =
      [List.replicate n 'a'] from by
    simp only [List.filter_cons, List.filter_nil, List.length_replicate]
    rw [if_pos (by simp [h10])]]
  exact intercalate_single _

/-- Dropping leading whitespace does nothing when the head is not
whitespace. -/
lemma dropWhile_cons_false (c : Char) (l : List Char) (h : isPySpace c = false) :
    List.dropWhile isPySpace (c :: l) = c :: l := by
  rw [List.dropWhile_cons, if_neg (by simp [h])]

/-- A non-empty replicate of `a` is non-empty. -/
lemma rep_a_ne_nil (n : Nat) (h : n ≠ 0) : List.replicate n 'a' ≠ [] := by
  cases n with
  | zero => exact absurd rfl h
  | succ m =>
    rw [List.replicate_succ]
    exact List.cons_ne_nil _ _

/-- The final `strip` of `_clean_text` leaves the truncated body with
its marker unchanged: it starts with `a` and ends with `]`. -/
lemma pyStrip_block :
    pyStrip (List.replicate 12000 'a' ++ truncMarker) =
      List.replicate 12000 'a' ++ truncMarker := by
  unfold pyStrip
  rw [show (12000 : Nat) = 11999 + 1 from rfl, List.replicate_succ,
    List.cons_append, dropWhile_cons_false _ _ (by decide), ← List.cons_append,
    ← List.replicate_succ, List.reverse_append, List.reverse_replicate]
  rw [show truncMarker.reverse = ']' :: truncMarker.reverse.tail from by decide]
  rw [List.cons_append, dropWhile_cons_false _ _ (by decide), ← List.cons_append]
  rw [show (']' :: truncMarker.reverse.tail) = truncMarker.reverse from by decide]
  rw [List.reverse_append, List.reverse_reverse, List.reverse_replicate]

/-- On a 12001-character single-line text, `_clean_text` truncates the
body to 12000 characters and appends the 14-character marker. -/
lemma clean_text_rep_12001 :
    clean_text (List.replicate 12001 'a') =
      List.replicate 12000 'a' ++ truncMarker := by
  unfold clean_text
  rw [if_neg (rep_a_ne_nil 12001 (by norm_num)), cleanJoin_rep 12001 (by norm_num)]
  rw [if_pos (by rw [List.length_replicate]; norm_num)]
  rw [List.take_replicate, show min 12000 12001 = 12000 from by norm_num]
  exact pyStrip_block

/-- Claim C8 (counterexample): a 12001-character input is truncated to
a 12000-character body plus the appended marker, so `_clean_text`
returns 12014 characters — the returned string exceeds the stated
12000-character cap. -/
theorem C8_cex :
    clean_text (List.replicate 12001 'a') =
      List.replicate 12000 'a' ++ truncMarker ∧
    (clean_text (List.replicate 12001 'a')).length = 12014 ∧
    ¬((clean_text (List.replicate 12001 'a')).length ≤ 12000) := by
  have hm : truncMarker.length = 14 := by decide
  refine ⟨clean_text_rep_12001, ?_, ?_⟩
  · rw [clean_text_rep_12001, List.length_append, List.length_replicate, hm]
  · rw [clean_text_rep_12001, List.length_append, List.length_replicate, hm]
    omega

/-- Claim C8 (amended): `_clean_text` truncates the kept body to 12000
characters and then appends the truncation marker, so its result is
bounded by 12000 plus the marker length (12014); likewise the
remote-render truncation is bounded by 15000 plus its marker length
(15023).  The nominal caps can be exceeded by exactly the marker. -/
theorem C8_caps (t : List Char) :
    (clean_text t).length ≤ 12000 + truncMarker.length ∧
    ∀ b, (jinaTruncate b).length ≤
      15000 + (String.toList "... [conteúdo truncado]").length := by
  have hm : truncMarker.length = 14 := by decide
  have hj : (String.toList "... [conteúdo truncado]").length = 23 := by decide
  constructor
  · unfold clean_text
    by_cases h : t = []
    · rw [if_pos h]
      simp
    · rw [if_neg h]
      refine le_trans (pyStrip_length_le _) ?_
      by_cases h2 : 12000 < (cleanJoin t).length
      · rw [if_pos h2, List.length_append, List.length_take]
        have := min_le_left 12000 (cleanJoin t).length
        omega
      · rw [if_neg h2]
        omega
  · intro b
    unfold jinaTruncate
    by_cases hb : 15000 < b.length
    · rw [if_pos hb, List.length_append, List.length_take]
      have := min_le_left 15000 b.length
      omega
    · rw [if_neg hb]
      omega
